import Mathlib

/-!
Verification of the pi-dashboard metrics-history core and the notes update
operation, embedded shallowly from `src/pi_dashboard/models.py` and
`src/pi_dashboard/server.py`.

Python integers are modelled as `Int` (arbitrary precision, as in Python).
The float-valued metric fields are carried as rationals: no claim performs
arithmetic on them, they are opaque payload of a history entry. Mutation of
`self.history` is modelled by functions from the old list to the new list,
matching the Python methods which reassign/append to `self.history`.
-/

namespace PiDashboard

/-- `SystemMetrics` from models.py: one metrics snapshot. The float fields are
represented as rationals; they are never computed with here. -/
structure SystemMetrics where
  cpu_usage : ℚ
  memory_usage : ℚ
  disk_usage : ℚ
  uptime : Int
  temperature : ℚ
  deriving DecidableEq

/-- `SystemMetricsHistoryEntry` from models.py: a metrics snapshot with a Unix
timestamp. -/
structure SystemMetricsHistoryEntry where
  metrics : SystemMetrics
  timestamp : Int
  deriving DecidableEq

/-- `SystemMetricsHistory.add_entry`: `self.history.append(entry)`. -/
def add_entry (history : List SystemMetricsHistoryEntry)
    (entry : SystemMetricsHistoryEntry) : List SystemMetricsHistoryEntry :=
  history ++ [entry]

/-- `SystemMetricsHistory.cleanup_old_entries`:
`cutoff_time = current_time - max_age_seconds;`
`self.history = [entry for entry in self.history if entry.timestamp >= cutoff_time]`. -/
def cleanup_old_entries (history : List SystemMetricsHistoryEntry)
    (max_age_seconds current_time : Int) : List SystemMetricsHistoryEntry :=
  let cutoff_time := current_time - max_age_seconds
  history.filter (fun entry => decide (entry.timestamp ≥ cutoff_time))

/-- `SystemMetricsHistory.get_entries_since`:
`cutoff_time = current_time - seconds_ago;`
`return [entry for entry in self.history if entry.timestamp >= cutoff_time]`. -/
def get_entries_since (history : List SystemMetricsHistoryEntry)
    (seconds_ago current_time : Int) : List SystemMetricsHistoryEntry :=
  let cutoff_time := current_time - seconds_ago
  history.filter (fun entry => decide (entry.timestamp ≥ cutoff_time))

/-- `get_entries_since` seen as a state transformer on the store: the method
body only reads `self.history` and returns a fresh list, it contains no
assignment to `self.history`, so the post-state equals the pre-state. -/
def get_entries_since_st (history : List SystemMetricsHistoryEntry)
    (seconds_ago current_time : Int) :
    List SystemMetricsHistoryEntry × List SystemMetricsHistoryEntry :=
  (get_entries_since history seconds_ago current_time, history)

/-- One call in an arbitrary client interaction with the store: either an
`add_entry` or a `cleanup_old_entries`. -/
inductive HistoryOp where
  | add (entry : SystemMetricsHistoryEntry)
  | cleanup (max_age_seconds current_time : Int)

/-- Apply one `HistoryOp` to the store state. -/
def applyOp (history : List SystemMetricsHistoryEntry) :
    HistoryOp → List SystemMetricsHistoryEntry
  | HistoryOp.add entry => add_entry history entry
  | HistoryOp.cleanup a t => cleanup_old_entries history a t

/-- Apply a sequence of store calls in order. -/
def applyOps (history : List SystemMetricsHistoryEntry)
    (ops : List HistoryOp) : List SystemMetricsHistoryEntry :=
  ops.foldl applyOp history

/-- The body of the query handler `PiDashboardServer.get_system_metrics_history`
(server.py lines 225-240) restricted to its store interaction:
`self.metrics_history.get_entries_since(min(last_n_seconds, max_history_duration), now)`. -/
def get_system_metrics_history (history : List SystemMetricsHistoryEntry)
    (max_history_duration last_n_seconds now : Int) :
    List SystemMetricsHistoryEntry :=
  get_entries_since history (min last_n_seconds max_history_duration) now

/-- One iteration of `PiDashboardServer._collect_metrics_periodically`
(server.py lines 111-133) as it acts on the store. The try-block first calls
`cleanup_old_entries(max_history_duration, timestamp)`, then
`get_system_metrics()`; a raise there (`sample = none`) is caught by the
`except Exception` clause, which logs, sleeps and lets the `while True` loop
continue — so a failing cycle ends with the cleaned history and no appended
entry, while a succeeding cycle (`sample = some m`) appends
`SystemMetricsHistoryEntry(metrics=m, timestamp=timestamp)` after the cleanup. -/
def collect_metrics_cycle (history : List SystemMetricsHistoryEntry)
    (max_history_duration timestamp : Int) (sample : Option SystemMetrics) :
    List SystemMetricsHistoryEntry :=
  let cleaned := cleanup_old_entries history max_history_duration timestamp
  match sample with
  | some metrics => add_entry cleaned ⟨metrics, timestamp⟩
  | none => cleaned

/-- A fixed metrics payload used for concrete test stores. -/
def m0 : SystemMetrics := ⟨0, 0, 0, 0, 0⟩

/-- The ten-entry store of the spec scenario: timestamps 1000, 1060, ..., 1540. -/
def tenEntryStore : List SystemMetricsHistoryEntry :=
  [⟨m0, 1000⟩, ⟨m0, 1060⟩, ⟨m0, 1120⟩, ⟨m0, 1180⟩, ⟨m0, 1240⟩,
   ⟨m0, 1300⟩, ⟨m0, 1360⟩, ⟨m0, 1420⟩, ⟨m0, 1480⟩, ⟨m0, 1540⟩]

/-- `Note` from models.py. -/
structure Note where
  id : String
  title : String
  content : String
  created_at : String
  updated_at : String
  deriving DecidableEq

/-- Python truthiness coalescing `x or y` for `x : str | None`: both `None` and
the empty string are falsy, so they yield `y`; any other string yields `x`.
`update_note` uses this as `note.title = title or note.title` and
`note.content = content or note.content`. -/
def py_str_or (new : Option String) (old : String) : String :=
  match new with
  | none => old
  | some s => if s = "" then old else s

/-- `NotesCollection.get_note_by_id`: linear scan returning the first note
whose `id` matches, `None` otherwise. -/
def get_note_by_id (notes : List Note) (note_id : String) : Option Note :=
  notes.find? (fun note => decide (note.id = note_id))

/-- `NotesCollection.update_note` (models.py lines 149-164): looks up the first
note with the given id; if found, sets `title`/`content` through Python `or`
(so falsy arguments keep the old value) and sets `updated_at` to the new
timestamp unconditionally. Python mutates the found note object in place, so
the collection is modelled as updated at that position; the updated note (or
`none` when absent) is returned alongside the new collection state. -/
def update_note (notes : List Note) (note_id current_timestamp : String)
    (title content : Option String) : List Note × Option Note :=
  match notes with
  | [] => ([], none)
  | n :: rest =>
    if n.id = note_id then
      let updated : Note :=
        ⟨n.id, py_str_or title n.title, py_str_or content n.content,
         n.created_at, current_timestamp⟩
      (updated :: rest, some updated)
    else
      let r := update_note rest note_id current_timestamp title content
      (n :: r.1, r.2)

/-- Field validation of `UpdateNoteRequest` (models.py lines 297-301): `title`
carries `min_length=1, max_length=200` when present; `content` is
unconstrained — any length, including the empty string, is accepted. -/
def update_note_request_valid (title content : Option String) : Bool :=
  (match title with
   | none => true
   | some t => decide (1 ≤ t.length) && decide (t.length ≤ 200)) &&
  (match content with
   | none => true
   | some _ => true)

/-- A concrete note used by witnesses. -/
def sampleNote : Note := ⟨"id1", "t", "c", "ts0", "ts0"⟩

/-- Claim C1: after any `cleanup_old_entries(max_age, now)` — reached from any
store state, in particular after any prior sequence of `add_entry` and
`cleanup_old_entries` calls — every entry remaining in the store satisfies
`timestamp >= now - max_age`. -/
theorem cleanup_window_invariant (h0 : List SystemMetricsHistoryEntry)
    (ops : List HistoryOp) (max_age now : Int) (e : SystemMetricsHistoryEntry)
    (he : e ∈ cleanup_old_entries (applyOps h0 ops) max_age now) :
    now - max_age ≤ e.timestamp := by
  unfold cleanup_old_entries at he
  simp only [List.mem_filter, decide_eq_true_eq, ge_iff_le] at he
  exact he.2

/-- Witness for C1 at a concrete store, operation sequence and entry. -/
theorem cleanup_window_invariant_witness :
    (120 : Int) - 50 ≤ (SystemMetricsHistoryEntry.mk m0 100).timestamp :=
  cleanup_window_invariant [⟨m0, 100⟩] [HistoryOp.add ⟨m0, 80⟩] 50 120 ⟨m0, 100⟩
    (by decide)

/-- Claim C4: `cleanup_old_entries` is idempotent — applying it twice with the
same arguments yields the same store state as applying it once (the operation
is a total pure filter, so in this embedding it cannot fail). -/
theorem cleanup_idempotent (h : List SystemMetricsHistoryEntry)
    (max_age now : Int) :
    cleanup_old_entries (cleanup_old_entries h max_age now) max_age now =
      cleanup_old_entries h max_age now := by
  simp [cleanup_old_entries, List.filter_filter]

/-- Claim C5: for a fixed `now`, `get_entries_since a now` is a subsequence of
`get_entries_since b now` whenever `a ≤ b`. -/
theorem get_entries_since_monotone (h : List SystemMetricsHistoryEntry)
    (now a b : Int) (hab : a ≤ b) :
    List.Sublist (get_entries_since h a now) (get_entries_since h b now) := by
  unfold get_entries_since
  apply List.monotone_filter_right
  intro e hp
  simp only [decide_eq_true_eq, ge_iff_le] at hp ⊢
  omega

/-- Witness for C5 at a concrete store and window pair. -/
theorem get_entries_since_monotone_witness :
    (2 : Int) ≤ 7 ∧
      List.Sublist (get_entries_since [⟨m0, 5⟩] 2 10)
        (get_entries_since [⟨m0, 5⟩] 7 10) :=
  ⟨by decide, get_entries_since_monotone [⟨m0, 5⟩] 10 2 7 (by decide)⟩

/-- Claim C6: both `cleanup_old_entries` and `get_entries_since` produce
order-preserving subsequences of the stored history: survivors and matches
keep their original insertion order. -/
theorem cleanup_and_query_order_preserving (h : List SystemMetricsHistoryEntry)
    (max_age t seconds_ago now : Int) :
    List.Sublist (cleanup_old_entries h max_age t) h ∧
      List.Sublist (get_entries_since h seconds_ago now) h :=
  ⟨List.filter_sublist h, List.filter_sublist h⟩

/-- Claim C9: `get_entries_since` leaves the store state unchanged (its method
body contains no assignment), and on the empty store both queries yield the
empty result/state. -/
theorem get_entries_since_readonly_and_empty
    (st : List SystemMetricsHistoryEntry) (s n max_age t : Int) :
    (get_entries_since_st st s n).2 = st ∧
      get_entries_since [] s n = [] ∧
      cleanup_old_entries [] max_age t = [] :=
  ⟨rfl, rfl, rfl⟩

/-- Claim C2: the query handler delegates to `get_entries_since` with the
requested window clamped by `min` to `max_history_duration`, so the effective
window never exceeds the store's configured max age; with
`max_history_duration = 1800` a request of `last_n_seconds = 5000` uses an
effective window of 1800. -/
theorem query_handler_clamps (h : List SystemMetricsHistoryEntry)
    (max_history_duration last_n_seconds now : Int) (hl : 1 ≤ last_n_seconds) :
    get_system_metrics_history h max_history_duration last_n_seconds now =
        get_entries_since h (min last_n_seconds max_history_duration) now ∧
      min last_n_seconds max_history_duration ≤ max_history_duration ∧
      get_system_metrics_history h 1800 5000 now = get_entries_since h 1800 now := by
  refine ⟨rfl, min_le_right _ _, ?_⟩
  unfold get_system_metrics_history
  norm_num

/-- Witness for C2 at a concrete store and request. -/
theorem query_handler_clamps_witness :
    (1 : Int) ≤ 5000 ∧
      (get_system_metrics_history [] 1800 5000 0 =
          get_entries_since [] (min 5000 1800) 0 ∧
        min (5000 : Int) 1800 ≤ 1800 ∧
        get_system_metrics_history [] 1800 5000 0 = get_entries_since [] 1800 0) :=
  ⟨by decide, query_handler_clamps [] 1800 5000 0 (by decide)⟩

/-- Claim C3 counterexample: on a cycle where the sample source fails, the
entry count can drop below the pre-cycle count, because the cycle's cleanup
runs before the failing collection call — here a store holding one stale entry
goes from count 1 to count 0 even though nothing is appended. -/
theorem sampler_failure_count_counterexample :
    [SystemMetricsHistoryEntry.mk m0 0].length = 1 ∧
      (collect_metrics_cycle [⟨m0, 0⟩] 1800 10000 none).length = 0 := by
  exact ⟨rfl, rfl⟩

/-- Claim C3 amended: if the sample source fails on cycle k, no entry is
appended — the post-cycle store is exactly that cycle's cleanup of the
pre-cycle store, so the count never exceeds the pre-cycle count and equals it
whenever no pre-cycle entry is older than the window; the failure is caught,
the loop keeps running, and on cycle k+1 an entry is appended if the source
succeeds then. -/
theorem sampler_failure_resilient (h : List SystemMetricsHistoryEntry)
    (max_history_duration now now2 : Int) (m : SystemMetrics) :
    collect_metrics_cycle h max_history_duration now none =
        cleanup_old_entries h max_history_duration now ∧
      (collect_metrics_cycle h max_history_duration now none).length ≤ h.length ∧
      ((∀ e ∈ h, now - max_history_duration ≤ e.timestamp) →
        (collect_metrics_cycle h max_history_duration now none).length = h.length) ∧
      collect_metrics_cycle (collect_metrics_cycle h max_history_duration now none)
          max_history_duration now2 (some m) =
        add_entry
          (cleanup_old_entries (collect_metrics_cycle h max_history_duration now none)
            max_history_duration now2)
          ⟨m, now2⟩ := by
  refine ⟨rfl, List.length_filter_le _ _, ?_, rfl⟩
  intro hall
  show (List.filter _ h).length = h.length
  rw [List.filter_eq_self.mpr]
  intro e he
  simp only [decide_eq_true_eq, ge_iff_le]
  exact hall e he

/-- Claim C7: the lower boundary of `get_entries_since` is inclusive — with
`seconds_ago = 0` every entry whose timestamp equals `current_time` is
returned (exactly the same multiset of such entries as stored); in particular
a store holding two distinct entries sharing timestamp 5 returns both for
`get_entries_since 0 5`. -/
theorem get_entries_since_boundary_inclusive :
    (∀ (h : List SystemMetricsHistoryEntry) (now : Int),
        (get_entries_since h 0 now).filter (fun e => decide (e.timestamp = now)) =
          h.filter (fun e => decide (e.timestamp = now))) ∧
      get_entries_since [⟨m0, 5⟩, ⟨⟨1, 0, 0, 0, 0⟩, 5⟩] 0 5 =
        [⟨m0, 5⟩, ⟨⟨1, 0, 0, 0, 0⟩, 5⟩] := by
  constructor
  · intro h now
    unfold get_entries_since
    rw [List.filter_filter]
    apply List.filter_congr
    intro e _
    by_cases he : e.timestamp = now
    · simp [he]
    · simp [he]
  · rfl

/-- Claim C8 counterexample: on the ten-entry store with timestamps
1000, 1060, ..., 1540, the query `get_entries_since 300 1540` returns 6
entries, not 5 as the claim counts them. -/
theorem scenario_query_count_counterexample :
    ¬ (get_entries_since tenEntryStore 300 1540).length = 5 ∧
      (get_entries_since tenEntryStore 300 1540).length = 6 := by
  exact ⟨by decide, rfl⟩

/-- Claim C8 amended: on the ten-entry store, `get_entries_since 300 1540`
returns exactly the 6 entries with timestamps 1240, 1300, 1360, 1420, 1480,
1540 — every entry with timestamp ≥ 1240. -/
theorem scenario_query_six_entries :
    get_entries_since tenEntryStore 300 1540 =
        [⟨m0, 1240⟩, ⟨m0, 1300⟩, ⟨m0, 1360⟩, ⟨m0, 1420⟩, ⟨m0, 1480⟩, ⟨m0, 1540⟩] ∧
      (get_entries_since tenEntryStore 300 1540).map
          SystemMetricsHistoryEntry.timestamp =
        [1240, 1300, 1360, 1420, 1480, 1540] := by
  exact ⟨rfl, rfl⟩

/-- Claim C10: when a note with the given id exists, `update_note` called with
an empty-string `title` and `content` keeps both fields at their previous
values (Python `or` treats the empty string as falsy) while still setting
`updated_at` to the new timestamp — even though `UpdateNoteRequest` accepts an
empty `content` as valid input. -/
theorem update_note_empty_keeps_fields (notes : List Note)
    (note_id ts : String) (note : Note)
    (hfound : get_note_by_id notes note_id = some note) :
    (update_note notes note_id ts (some "") (some "")).2 =
        some ⟨note.id, note.title, note.content, note.created_at, ts⟩ ∧
      update_note_request_valid none (some "") = true := by
  refine ⟨?_, rfl⟩
  induction notes with
  | nil => exact absurd hfound (by simp [get_note_by_id])
  | cons n rest ih =>
    by_cases hid : n.id = note_id
    · have hn : n = note := by
        simpa [get_note_by_id, List.find?_cons, hid] using hfound
      subst hn
      simp [update_note, hid, py_str_or]
    · have hrest : get_note_by_id rest note_id = some note := by
        simpa [get_note_by_id, List.find?_cons, hid] using hfound
      simpa [update_note, hid] using ih hrest

/-- Witness for C10 at a concrete collection and note. -/
theorem update_note_empty_keeps_fields_witness :
    (update_note [sampleNote] "id1" "ts1" (some "") (some "")).2 =
        some ⟨sampleNote.id, sampleNote.title, sampleNote.content,
          sampleNote.created_at, "ts1"⟩ ∧
      update_note_request_valid none (some "") = true :=
  update_note_empty_keeps_fields [sampleNote] "id1" "ts1" sampleNote (by decide)

end PiDashboard
